import Mathlib

/-!
Shallow embedding of the connection lifecycle and dispatch core of the
MaidSafe RUDP transport, translated from
`src/maidsafe/rudp/connection_manager.cc`, `src/maidsafe/rudp/transport.cc`
and `src/maidsafe/rudp/transport.h`, together with theorems settling the
specification claims about it.

State is passed explicitly; the calls a function makes on collaborators
(sockets, connections, the connection manager itself) are recorded as
explicit effect values, so that "f is invoked exactly once" becomes a
statement about the returned effect list.
-/

namespace Rudp

/-- Opaque node identifier; `0` models the default-constructed (null)
`NodeId`, which is the only invalid one. -/
structure NodeId where
  val : Nat
deriving DecidableEq, Repr

/-- Validity predicate of `NodeId` (`NodeId().IsValid()` is false). -/
def NodeId.isValid (n : NodeId) : Bool := n.val ≠ 0

/-- The null node id, `NodeId()`. -/
def NodeId.null : NodeId := ⟨0⟩

/-- Modelled from the spec: an IP address together with the
`is_private` classification computed by `OnPrivateNetwork` in
`utils.cc`, which is not under `src/`; the spec says only that the
predicate distinguishes RFC1918/loopback/link-local addresses from
public ones, so the classification is carried as a field of the
address. -/
structure IpAddr where
  ip : Nat
  priv : Bool
deriving DecidableEq, Repr

/-- An endpoint is an (IP address, UDP port) pair. -/
structure Endpoint where
  address : IpAddr
  port : Nat
deriving DecidableEq, Repr

/-- The null endpoint `Endpoint()`. -/
def Endpoint.null : Endpoint := ⟨⟨0, false⟩, 0⟩

/-- Modelled from the spec: `IsValid(ep)` (in `utils.cc`, not under
`src/`) "rejects the null endpoint". -/
def Endpoint.isValid (e : Endpoint) : Bool := e ≠ Endpoint.null

/-- `OnPrivateNetwork` reads the classification off the address. -/
def OnPrivateNetwork (e : Endpoint) : Bool := e.address.priv

/-- Connection states (`Connection::State`). -/
inductive ConnState
  | pending
  | temporary
  | bootstrapping
  | unvalidated
  | permanent
  | duplicate
deriving DecidableEq, Repr

/-- Predicate `IsNormal` from the unnamed namespace of
`connection_manager.cc`: a connection is normal when its state is
`kPermanent`, `kUnvalidated` or `kBootstrapping`. -/
def IsNormal (s : ConnState) : Bool :=
  s = ConnState.permanent || s = ConnState.unvalidated || s = ConnState.bootstrapping

/-- A `Connection` as the manager sees it: the C++ object identity
(`cid` stands for the `shared_ptr` pointer value, which is what the
`std::set<ConnectionPtr>` is keyed on), its state, and the peer data
exposed through its socket. -/
structure Connection where
  cid : Nat
  state : ConnState
  peerNodeId : NodeId
  peerEndpoint : Endpoint
deriving DecidableEq, Repr

/-- State of a `ConnectionManager`: the connection group
(`std::set<ConnectionPtr>`, modelled as a list of connections with
pairwise distinct identities), this node's id, and whether
`transport_.lock()` succeeds (the owning transport is still alive). -/
structure ConnectionManager where
  connections : List Connection
  thisNodeId : NodeId
  transportAlive : Bool
deriving DecidableEq, Repr

/-- Insertion into `connections_` (`std::set<ConnectionPtr>::insert`):
keyed on object identity; returns the updated group and whether the
element was actually inserted (`result.second`). -/
def insertConn (l : List Connection) (c : Connection) : List Connection × Bool :=
  if l.any (fun c' => c'.cid = c.cid) then (l, false) else (l ++ [c], true)

/-- Translation of `ConnectionManager::AddConnection`
(connection_manager.cc:93-103): if the connection is normal, insert it
into the set and return `result.second`; otherwise return `false`.
No check against the peer node id is performed. -/
def ConnectionManager.addConnection (m : ConnectionManager) (c : Connection) :
    ConnectionManager × Bool :=
  if IsNormal c.state then
    let r := insertConn m.connections c
    ({ m with connections := r.1 }, r.2)
  else
    (m, false)

/-- Translation of `ConnectionManager::FindConnection`
(connection_manager.cc:337-345): linear search of the group for a
connection whose socket's peer node id matches. -/
def ConnectionManager.findConnection (m : ConnectionManager) (peerId : NodeId) :
    Option Connection :=
  m.connections.find? (fun c => c.peerNodeId = peerId)

/-- Translation of `ConnectionManager::RemoveConnection`
(connection_manager.cc:119-123): erase the connection (by identity)
from the group. -/
def ConnectionManager.removeConnection (m : ConnectionManager) (c : Connection) :
    ConnectionManager :=
  { m with connections := m.connections.filter (fun c' => c'.cid ≠ c.cid) }

/-- Number of connections in the group for a given peer node id. -/
def ConnectionManager.countForPeer (m : ConnectionManager) (peerId : NodeId) : Nat :=
  (m.connections.filter (fun c => IsNormal c.state && c.peerNodeId = peerId)).length

/-- Connection reasons carried by a handshake packet
(`Session::kNormal`, `kBootstrapAndDrop`, `kNatDetection`, `kPing`). -/
inductive Reason
  | normal
  | bootstrapAndDrop
  | natDetection
  | ping
deriving DecidableEq, Repr

/-- The decoded fields of a `HandshakePacket` that this layer inspects. -/
structure HandshakePacket where
  nodeId : NodeId
  reason : Reason
deriving DecidableEq, Repr

/-- A `Socket` as registered in the manager's `SocketMap`: its peer
endpoint, whether it is connected, and the guessed port recorded by
`UpdatePeerEndpoint`. -/
structure RudpSocket where
  peerEndpoint : Endpoint
  connected : Bool
  peerGuessedPort : Nat
deriving DecidableEq, Repr

/-- Modelled from the spec: `Socket::UpdatePeerEndpoint` (in
`core/socket.cc`, not under `src/`) sets the peer endpoint to the
sender and records the original port as the guessed port. -/
def RudpSocket.updatePeerEndpoint (s : RudpSocket) (e : Endpoint) : RudpSocket :=
  { s with peerEndpoint := e, peerGuessedPort := s.peerEndpoint.port }

/-- The socket map `sockets_`: association list from non-zero socket id
to socket. -/
abbrev SocketMap := List (Nat × RudpSocket)

/-- Lookup in the socket map (`sockets_.find(id)`). -/
def SocketMap.lookup (m : SocketMap) (id : Nat) : Option RudpSocket :=
  (List.find? (fun p => p.1 = id) m).map (fun p => p.2)

/-- The possibilities for an incoming datagram after the packet codec
(an external collaborator) has run: undecodable, bound to a non-zero
destination socket id, or an unbound (id = 0) handshake that either
decodes or does not. -/
inductive PacketInfo
  | bad
  | bound (sid : Nat)
  | badHandshake
  | handshake (hs : HandshakePacket)
deriving DecidableEq, Repr

/-- Calls `GetSocket` makes on collaborators while routing a packet. -/
inductive GetSocketEffect
  | updatedPeerEndpoint (sid : Nat) (sender : Endpoint)
  | handlePingFrom (hs : HandshakePacket) (sender : Endpoint)
deriving DecidableEq, Repr

/-- Result of `GetSocket`: the id of the socket the packet is delivered
to (`none` means dropped), the socket map afterwards, and the calls
made. -/
structure GetSocketResult where
  target : Option Nat
  sockets : SocketMap
  effects : List GetSocketEffect
deriving DecidableEq, Repr

/-- Exact-match search used at connection_manager.cc:182-187 and
209-214: first socket whose `PeerEndpoint()` equals the sender. -/
def findByPeerEndpoint (m : SocketMap) (sender : Endpoint) : Option (Nat × RudpSocket) :=
  List.find? (fun p => p.2.peerEndpoint = sender) m

/-- Address-only search used at connection_manager.cc:191-198: first
socket whose peer address equals the sender's address, whose peer
endpoint is not on a private network, and which is not yet connected. -/
def findByAddressForRevision (m : SocketMap) (sender : Endpoint) :
    Option (Nat × RudpSocket) :=
  List.find? (fun p =>
    p.2.peerEndpoint.address = sender.address &&
    !(OnPrivateNetwork p.2.peerEndpoint) && !p.2.connected) m

/-- Replacement of one entry of the socket map (the in-place mutation
performed through `socket_iter->second` at connection_manager.cc:202). -/
def SocketMap.replace (m : SocketMap) (id : Nat) (s : RudpSocket) : SocketMap :=
  List.map (fun p => if p.1 = id then (id, s) else p) m

/-- Translation of `ConnectionManager::GetSocket`
(connection_manager.cc:162-244). The manager's connection set plays no
part here; `sockets_` is passed and returned explicitly, and the call
to `HandlePingFrom` is recorded as an effect rather than executed. -/
def GetSocket (m : SocketMap) (p : PacketInfo) (sender : Endpoint) : GetSocketResult :=
  if List.isEmpty m then ⟨none, m, []⟩
  else
    match p with
    | PacketInfo.bad => ⟨none, m, []⟩
    | PacketInfo.badHandshake => ⟨none, m, []⟩
    | PacketInfo.bound sid =>
      match List.find? (fun q => q.1 = sid) m with
      | some q => ⟨some q.1, m, []⟩
      | none => ⟨none, m, []⟩
    | PacketInfo.handshake hs =>
      match hs.reason with
      | Reason.normal =>
        match findByPeerEndpoint m sender with
        | some q => ⟨some q.1, m, []⟩
        | none =>
          match findByAddressForRevision m sender with
          | some q =>
            ⟨some q.1, SocketMap.replace m q.1 (q.2.updatePeerEndpoint sender),
             [GetSocketEffect.updatedPeerEndpoint q.1 sender]⟩
          | none => ⟨none, m, []⟩
      | _ =>
        match findByPeerEndpoint m sender with
        | some q => ⟨some q.1, m, []⟩
        | none => ⟨none, m, [GetSocketEffect.handlePingFrom hs sender]⟩

/-- Symbolic time durations: the concrete magnitudes live in
`parameters.cc`, outside this layer; this layer only ever passes the
named parameters (or zero / infinity) through. -/
inductive Duration
  | zero
  | bootstrapConnectTimeout
  | bootstrapConnectionLifespan
  | rendezvousConnectTimeout
  | posInfin
deriving DecidableEq, Repr

/-- Calls `HandlePingFrom` makes: closing an existing connection
(identified by object identity), or calling `Connect` with the given
arguments. -/
inductive PingFromEffect
  | closeConnection (cid : Nat)
  | startConnect (peerId : NodeId) (ep : Endpoint) (validationData : String)
      (attemptTimeout : Duration) (lifespan : Duration)
deriving DecidableEq, Repr

/-- Translation of `ConnectionManager::HandlePingFrom`
(connection_manager.cc:246-277). -/
def ConnectionManager.handlePingFrom (m : ConnectionManager) (hs : HandshakePacket)
    (sender : Endpoint) : List PingFromEffect :=
  if hs.nodeId = m.thisNodeId then []
  else if sender.isValid then
    let bootstrapAndDrop : Bool := hs.reason == Reason.bootstrapAndDrop
    let joining : Option Connection :=
      match m.findConnection hs.nodeId with
      | some c => if bootstrapAndDrop then none else some c
      | none => none
    match joining with
    | some c => [PingFromEffect.closeConnection c.cid]
    | none =>
      [PingFromEffect.startConnect hs.nodeId sender ""
        Duration.bootstrapConnectTimeout
        (if bootstrapAndDrop then Duration.zero else Duration.bootstrapConnectionLifespan)]
  else []

/-- Translation of `ConnectionManager::AddSocket`
(connection_manager.cc:317-325). The C++ loop draws random ids until
one is non-zero and unused; the stream of draws is passed explicitly
and the function returns `none` if the (finite) stream runs out before
an acceptable id appears. -/
def AddSocket (m : SocketMap) (s : RudpSocket) : List Nat → Option (Nat × SocketMap)
  | [] => none
  | d :: ds =>
    if d = 0 || (SocketMap.lookup m d).isSome then AddSocket m s ds
    else some (d, (d, s) :: m)

/-- Translation of `ConnectionManager::RemoveSocket`
(connection_manager.cc:327-330): id 0 is ignored, otherwise the entry
is erased. -/
def RemoveSocket (m : SocketMap) (id : Nat) : SocketMap :=
  if id = 0 then m else m.filter (fun p => p.1 ≠ id)

/-- Well-formedness of a live socket registry: all ids non-zero and
pairwise distinct. -/
def SocketMap.wf (m : SocketMap) : Prop :=
  (∀ p ∈ m, p.1 ≠ 0) ∧ (m.map Prod.fst).Nodup

/-- Calls `Ping` and `Connect` on the manager make when the owning
transport is alive: a fresh `Connection` is constructed and
`Ping` / `StartConnecting` is invoked on it. -/
inductive MgrEffect
  | connectionPing (peerId : NodeId) (ep : Endpoint)
  | connectionStartConnecting (peerId : NodeId) (ep : Endpoint) (validationData : String)
      (attemptTimeout : Duration) (lifespan : Duration)
deriving DecidableEq, Repr

/-- Translation of `ConnectionManager::Ping`
(connection_manager.cc:136-144): the body runs only if
`transport_.lock()` succeeds. -/
def ConnectionManager.ping (m : ConnectionManager) (peerId : NodeId) (ep : Endpoint) :
    ConnectionManager × List MgrEffect :=
  if m.transportAlive then (m, [MgrEffect.connectionPing peerId ep]) else (m, [])

/-- Translation of `ConnectionManager::Connect`
(connection_manager.cc:80-91): the body runs only if
`transport_.lock()` succeeds. -/
def ConnectionManager.connect (m : ConnectionManager) (peerId : NodeId) (ep : Endpoint)
    (validationData : String) (attemptTimeout lifespan : Duration) :
    ConnectionManager × List MgrEffect :=
  if m.transportAlive then
    (m, [MgrEffect.connectionStartConnecting peerId ep validationData attemptTimeout lifespan])
  else (m, [])

/-- An `EndpointPair` as used during rendezvous connect. -/
structure EndpointPair where
  epLocal : Endpoint
  epExternal : Endpoint
deriving DecidableEq, Repr

/-- One call to `connection_manager_->Connect` made by
`Transport::DoConnect`. -/
structure ConnectCall where
  peerId : NodeId
  endpoint : Endpoint
  attemptTimeout : Duration
  lifespan : Duration
deriving DecidableEq, Repr

/-- Result of `Transport::DoConnect`: whether the handler was invoked
immediately with `failed_to_connect`, the `Connect` calls made
synchronously, and the additional `Connect` calls made when the
attempt on the first endpoint completes (parameterised by whether the
multiplexer is still open at that moment). -/
structure DoConnectResult where
  immediateFail : Bool
  initialConnects : List ConnectCall
  onFirstOutcome : Bool → List ConnectCall

/-- Translation of `Transport::DoConnect` (transport.cc:276-313). -/
def DoConnect (muxOpen : Bool) (peerId : NodeId) (pair : EndpointPair) : DoConnectResult :=
  if !muxOpen then ⟨true, [], fun _ => []⟩
  else if pair.epExternal.isValid then
    if pair.epLocal ≠ pair.epExternal then
      ⟨false,
       [⟨peerId, pair.epExternal, Duration.rendezvousConnectTimeout, Duration.posInfin⟩],
       fun muxOpenAtOutcome =>
         if muxOpenAtOutcome then
           [⟨peerId, pair.epLocal, Duration.rendezvousConnectTimeout, Duration.posInfin⟩]
         else []⟩
    else
      ⟨false,
       [⟨peerId, pair.epExternal, Duration.rendezvousConnectTimeout, Duration.posInfin⟩],
       fun _ => []⟩
  else
    ⟨false,
     [⟨peerId, pair.epLocal, Duration.rendezvousConnectTimeout, Duration.posInfin⟩],
     fun _ => []⟩

/-- A bootstrap candidate (`Contact`): node id and endpoint pair. -/
structure Contact where
  id : NodeId
  epLocal : Endpoint
  epExternal : Endpoint
deriving DecidableEq, Repr

/-- Return codes surfaced by bootstrap. -/
inductive ReturnCode
  | kSuccess
  | kNotConnectable
deriving DecidableEq, Repr

/-- One attempt against one candidate, the single-contact overload of
`Transport::ConnectToBootstrapEndpoint` (transport.cc:159-188): an
invalid endpoint is reported immediately as `NodeId()`; otherwise the
outcome oracle `o` gives the peer id the connect handler delivers
(`NodeId()` on a connect error). -/
def bootstrapAttempt (o : Contact → NodeId) (c : Contact) : NodeId :=
  if c.epExternal.isValid then o c else NodeId.null

/-- Translation of the iterator overload of
`Transport::ConnectToBootstrapEndpoint` (transport.cc:142-157): try
candidates in order, retrying with the next on an invalid peer id, and
deliver `NodeId()` when the range is exhausted. -/
def connectToBootstrapEndpoints (o : Contact → NodeId) : List Contact → NodeId
  | [] => NodeId.null
  | c :: rest =>
    let r := bootstrapAttempt o c
    if r.isValid then r else connectToBootstrapEndpoints o rest

/-- Translation of the `on_bootstrap` completion lambda of
`Transport::TryBootstrapping` (transport.cc:127-136): a valid peer id
is reported as `kSuccess` with the first listed contact carrying that
id, an invalid one as `kNotConnectable` with the null contact
(modelled as `none`). -/
def onBootstrapOutcome (l : List Contact) (peerId : NodeId) : ReturnCode × Option Contact :=
  if peerId.isValid then (ReturnCode.kSuccess, l.find? (fun c => c.id = peerId))
  else (ReturnCode.kNotConnectable, none)

/-- Composition of the candidate iteration with the completion lambda:
the single invocation of the completion callback made by
`TryBootstrapping` for a given candidate list and outcome oracle. -/
def tryBootstrapping (o : Contact → NodeId) (l : List Contact) :
    ReturnCode × Option Contact :=
  onBootstrapOutcome l (connectToBootstrapEndpoints o l)

/-- Hard cap on normal connections per transport,
`McTransport::kMaxConnections()` (transport.h:103). -/
def kMaxConnections : Nat := 50

/-- Modelled from the spec: enforcement of the `max_connections` hard
cap ("Hard cap on normal connections per transport"). The constant is
declared in transport.h:103 but the layer that refuses further
connections once the cap is reached is not under `src/`; it is
modelled as a guard in front of `AddConnection`. -/
def ConnectionManager.addConnectionCapped (m : ConnectionManager) (c : Connection) :
    ConnectionManager × Bool :=
  if m.connections.length < kMaxConnections then m.addConnection c else (m, false)

/-- Run a sequence of capped adds from the empty initial manager
state. -/
def runCappedAdds (l : List Connection) : ConnectionManager :=
  l.foldl (fun m c => (m.addConnectionCapped c).1) ⟨[], NodeId.null, true⟩

/-! Theorems. -/

/-- Auxiliary: a capped add preserves the bound on the group size. -/
theorem cappedAdd_preserves_bound (m : ConnectionManager) (c : Connection)
    (h : m.connections.length ≤ kMaxConnections) :
    ((m.addConnectionCapped c).1).connections.length ≤ kMaxConnections := by
  unfold ConnectionManager.addConnectionCapped ConnectionManager.addConnection insertConn
  by_cases h1 : m.connections.length < kMaxConnections
  · simp only [h1, if_true]
    by_cases h2 : IsNormal c.state
    · simp only [h2, if_true]
      by_cases h3 : m.connections.any (fun c' => c'.cid = c.cid)
      · simpa [h3] using h
      · simp [h3]
        omega
    · simpa [h2] using h
  · simpa [h1] using h

/-- Auxiliary: the bound is an invariant of any fold of capped adds. -/
theorem foldl_cappedAdd_bound (l : List Connection) :
    ∀ m : ConnectionManager, m.connections.length ≤ kMaxConnections →
      ((l.foldl (fun m c => (m.addConnectionCapped c).1) m).connections.length ≤
        kMaxConnections) := by
  induction l with
  | nil => intro m h; simpa using h
  | cons c rest ih =>
    intro m h
    simp only [List.foldl]
    exact ih _ (cappedAdd_preserves_bound m c h)

/-- C1: the claim states that at most one normal connection per peer
node id is ever present in the connection set. The code violates it:
`ConnectionManager::AddConnection` (connection_manager.cc:93-103)
checks only the state, the `std::set<ConnectionPtr>` (see also
`ConnectionSet` in transport.h:112) dedupes by object identity, and no
per-peer lookup is made, so two distinct normal connections to peer 7
are both inserted and the set then holds two normal connections for
that peer. -/
theorem c1_two_normal_connections_same_peer :
    ((((ConnectionManager.mk [] ⟨1⟩ true).addConnection
          ⟨1, ConnState.unvalidated, ⟨7⟩, ⟨⟨10, false⟩, 100⟩⟩).1.addConnection
          ⟨2, ConnState.bootstrapping, ⟨7⟩, ⟨⟨10, false⟩, 200⟩⟩).1.countForPeer ⟨7⟩) = 2 := by
  decide

/-- C2: the claim states the `{Added, InvalidConnection,
AlreadyExists}` contract for `add_connection`. The code violates the
`AlreadyExists` limb: `ConnectionManager::AddConnection`
(connection_manager.cc:93-103) returns a plain `bool`, makes no
per-peer check, and on a second normal connection to the same peer 7
it inserts the connection and reports success instead of leaving the
set unchanged and reporting `AlreadyExists` (its caller
`Transport::AddConnection`, transport.cc:382-416, still branches on
`kConnectionAlreadyExists`, which a `bool` can never equal). The
`InvalidConnection` limb does hold, as the first conjunct records. -/
theorem c2_duplicate_peer_add_reports_success :
    (∀ (m : ConnectionManager) (c : Connection), IsNormal c.state = false →
      m.addConnection c = (m, false)) ∧
    (((ConnectionManager.mk [⟨1, ConnState.unvalidated, ⟨7⟩, ⟨⟨10, false⟩, 100⟩⟩] ⟨1⟩
          true).addConnection ⟨2, ConnState.unvalidated, ⟨7⟩, ⟨⟨10, false⟩, 200⟩⟩).2 = true ∧
      ((ConnectionManager.mk [⟨1, ConnState.unvalidated, ⟨7⟩, ⟨⟨10, false⟩, 100⟩⟩] ⟨1⟩
          true).addConnection
          ⟨2, ConnState.unvalidated, ⟨7⟩, ⟨⟨10, false⟩, 200⟩⟩).1.connections.length = 2) := by
  refine ⟨fun m c h => ?_, by decide, by decide⟩
  unfold ConnectionManager.addConnection
  simp [h]

/-- C9: the number of normal connections held by one transport never
exceeds `kMaxConnections` (50, transport.h:103): after any sequence of
(cap-guarded) `add_connection` operations from the empty state, the
connection set's size is at most `kMaxConnections`. -/
theorem c9_connection_count_bounded (l : List Connection) :
    (runCappedAdds l).connections.length ≤ kMaxConnections := by
  unfold runCappedAdds
  exact foldl_cappedAdd_bound l ⟨[], NodeId.null, true⟩ (by simp [kMaxConnections])

/-- C10: when the owning transport has been destroyed
(`transport_.lock()` fails), `Ping` has no effect — no `Connection` is
constructed, the manager state is unchanged, and the ping functor is
never handed to a connection — and the same guard makes `Connect` a
no-op (connection_manager.cc:80-91 and 136-144). -/
theorem c10_dead_transport_noop (m : ConnectionManager) (peerId : NodeId) (ep : Endpoint)
    (vd : String) (t l : Duration) (h : m.transportAlive = false) :
    m.ping peerId ep = (m, []) ∧ m.connect peerId ep vd t l = (m, []) := by
  unfold ConnectionManager.ping ConnectionManager.connect
  simp [h]

/-- C10 witness: the no-op behaviour at a concrete dead-transport
state. -/
theorem c10_dead_transport_noop_witness :
    (ConnectionManager.mk [] ⟨1⟩ false).ping ⟨2⟩ ⟨⟨10, false⟩, 5⟩ =
      (ConnectionManager.mk [] ⟨1⟩ false, []) ∧
    (ConnectionManager.mk [] ⟨1⟩ false).connect ⟨2⟩ ⟨⟨10, false⟩, 5⟩ "" Duration.zero
      Duration.zero = (ConnectionManager.mk [] ⟨1⟩ false, []) :=
  c10_dead_transport_noop (ConnectionManager.mk [] ⟨1⟩ false) ⟨2⟩ ⟨⟨10, false⟩, 5⟩ ""
    Duration.zero Duration.zero rfl

/-- C5: `handle_ping_from(hs, sender)` does nothing when `hs.node_id`
is this node's id; otherwise, for a valid sender: if a connection to
`hs.node_id` is in the set and the reason is not `BootstrapAndDrop`,
that connection is closed and no connect is started; otherwise a fresh
connect to `(hs.node_id, sender)` is started with empty validation
data, `bootstrap_connect_timeout`, and lifespan zero for
`BootstrapAndDrop` else `bootstrap_connection_lifespan`
(connection_manager.cc:246-277). -/
theorem c5_handle_ping_from (m : ConnectionManager) (hs : HandshakePacket)
    (sender : Endpoint) :
    (hs.nodeId = m.thisNodeId → m.handlePingFrom hs sender = []) ∧
    (hs.nodeId ≠ m.thisNodeId → sender.isValid = true →
      (∀ c, m.findConnection hs.nodeId = some c → hs.reason ≠ Reason.bootstrapAndDrop →
        m.handlePingFrom hs sender = [PingFromEffect.closeConnection c.cid]) ∧
      (m.findConnection hs.nodeId = none →
        m.handlePingFrom hs sender =
          [PingFromEffect.startConnect hs.nodeId sender "" Duration.bootstrapConnectTimeout
            (if hs.reason = Reason.bootstrapAndDrop then Duration.zero
             else Duration.bootstrapConnectionLifespan)]) ∧
      (hs.reason = Reason.bootstrapAndDrop →
        m.handlePingFrom hs sender =
          [PingFromEffect.startConnect hs.nodeId sender "" Duration.bootstrapConnectTimeout
            Duration.zero])) := by
  constructor
  · intro h
    unfold ConnectionManager.handlePingFrom
    simp [h]
  · intro hne hval
    refine ⟨?_, ?_, ?_⟩
    · intro c hfound hreason
      unfold ConnectionManager.handlePingFrom
      simp [hne, hval, hfound, hreason]
    · intro hnone
      unfold ConnectionManager.handlePingFrom
      by_cases hb : hs.reason = Reason.bootstrapAndDrop
      · simp [hne, hval, hnone, hb]
      · simp [hne, hval, hnone, hb]
    · intro hb
      unfold ConnectionManager.handlePingFrom
      cases hfind : m.findConnection hs.nodeId with
      | none => simp [hne, hval, hfind, hb]
      | some c => simp [hne, hval, hfind, hb]

/-- C5 witness: concrete instances of the loopback-drop, the
close-existing and the fresh-connect cases. -/
theorem c5_handle_ping_from_witness :
    (ConnectionManager.mk [] ⟨1⟩ true).handlePingFrom ⟨⟨1⟩, Reason.ping⟩
      ⟨⟨10, false⟩, 30⟩ = [] ∧
    (ConnectionManager.mk [⟨4, ConnState.permanent, ⟨7⟩, ⟨⟨10, false⟩, 100⟩⟩] ⟨1⟩
        true).handlePingFrom ⟨⟨7⟩, Reason.ping⟩ ⟨⟨10, false⟩, 30⟩ =
      [PingFromEffect.closeConnection 4] ∧
    (ConnectionManager.mk [] ⟨1⟩ true).handlePingFrom ⟨⟨7⟩, Reason.bootstrapAndDrop⟩
      ⟨⟨10, false⟩, 30⟩ =
      [PingFromEffect.startConnect ⟨7⟩ ⟨⟨10, false⟩, 30⟩ ""
        Duration.bootstrapConnectTimeout Duration.zero] := by
  refine ⟨(c5_handle_ping_from (ConnectionManager.mk [] ⟨1⟩ true) ⟨⟨1⟩, Reason.ping⟩
      ⟨⟨10, false⟩, 30⟩).1 rfl, ?_, ?_⟩
  · exact (((c5_handle_ping_from
      (ConnectionManager.mk [⟨4, ConnState.permanent, ⟨7⟩, ⟨⟨10, false⟩, 100⟩⟩] ⟨1⟩ true)
      ⟨⟨7⟩, Reason.ping⟩ ⟨⟨10, false⟩, 30⟩).2 (by decide) (by decide)).1
      ⟨4, ConnState.permanent, ⟨7⟩, ⟨⟨10, false⟩, 100⟩⟩ (by decide) (by decide))
  · exact (((c5_handle_ping_from (ConnectionManager.mk [] ⟨1⟩ true)
      ⟨⟨7⟩, Reason.bootstrapAndDrop⟩ ⟨⟨10, false⟩, 30⟩).2 (by decide) (by decide)).2.2
      (by decide))

/-- Auxiliary: lookup on a cons cell. -/
theorem lookup_cons (p : Nat × RudpSocket) (t : SocketMap) (i : Nat) :
    SocketMap.lookup (p :: t) i =
      if p.1 = i then some p.2 else SocketMap.lookup t i := by
  by_cases hp : p.1 = i
  · simp [SocketMap.lookup, List.find?_cons, hp]
  · simp [SocketMap.lookup, List.find?_cons, hp]

/-- Auxiliary: replace on a cons cell. -/
theorem replace_cons (p : Nat × RudpSocket) (t : SocketMap) (id : Nat) (s : RudpSocket) :
    SocketMap.replace (p :: t) id s =
      (if p.1 = id then (id, s) else p) :: SocketMap.replace t id s := by
  by_cases hp : p.1 = id
  · simp [SocketMap.replace, hp]
  · simp [SocketMap.replace, hp]

/-- Auxiliary: replacing an existing key makes lookup return the new
socket. -/
theorem lookup_replace_self (m : SocketMap) (id : Nat) (s : RudpSocket)
    (h : (SocketMap.lookup m id).isSome) :
    SocketMap.lookup (SocketMap.replace m id s) id = some s := by
  induction m with
  | nil => simp [SocketMap.lookup] at h
  | cons p rest ih =>
    rw [replace_cons]
    by_cases hp : p.1 = id
    · rw [if_pos hp, lookup_cons]
      simp
    · rw [if_neg hp, lookup_cons, if_neg hp]
      rw [lookup_cons, if_neg hp] at h
      exact ih h

/-- Auxiliary: replacing one key leaves lookups of other keys
unchanged. -/
theorem lookup_replace_ne (m : SocketMap) (id id' : Nat) (s : RudpSocket) (h : id' ≠ id) :
    SocketMap.lookup (SocketMap.replace m id s) id' = SocketMap.lookup m id' := by
  induction m with
  | nil => simp [SocketMap.lookup, SocketMap.replace]
  | cons p rest ih =>
    rw [replace_cons, lookup_cons, lookup_cons]
    by_cases hp : p.1 = id
    · have hne : ¬ (id = id') := fun hc => h hc.symm
      rw [if_pos hp, if_neg (by simpa using hne), if_neg (fun hc => h (hp ▸ hc).symm)]
      exact ih
    · rw [if_neg hp]
      by_cases hq : p.1 = id'
      · rw [if_pos hq, if_pos hq]
      · rw [if_neg hq, if_neg hq]
        exact ih

/-- Auxiliary: a member's key is present for lookup. -/
theorem lookup_isSome_of_mem (m : SocketMap) (q : Nat × RudpSocket) (h : q ∈ m) :
    (SocketMap.lookup m q.1).isSome := by
  induction m with
  | nil => simp at h
  | cons p rest ih =>
    rw [lookup_cons]
    by_cases hp : p.1 = q.1
    · simp [hp]
    · rw [if_neg hp]
      rcases List.mem_cons.1 h with h1 | h2
      · exact absurd (by rw [h1]) hp
      · exact ih h2

/-- C3: for an unbound (id = 0) handshake with reason `Normal` whose
sender matches no socket's peer endpoint exactly, `GetSocket`
(connection_manager.cc:179-207) falls back to an address-only match
restricted to sockets with a public (non-private) peer endpoint that
are not yet connected; on a match it calls `UpdatePeerEndpoint(sender)`
exactly once on that socket before delivering the packet to it (the
delivered socket is the updated one, all other sockets are untouched);
with no match the packet is dropped and the registry is unchanged. -/
theorem c3_symmetric_nat_endpoint_revision (m : SocketMap) (hs : HandshakePacket)
    (sender : Endpoint) (hnorm : hs.reason = Reason.normal)
    (hexact : findByPeerEndpoint m sender = none) :
    (∀ q, findByAddressForRevision m sender = some q →
      (GetSocket m (PacketInfo.handshake hs) sender).target = some q.1 ∧
      (GetSocket m (PacketInfo.handshake hs) sender).effects =
        [GetSocketEffect.updatedPeerEndpoint q.1 sender] ∧
      SocketMap.lookup (GetSocket m (PacketInfo.handshake hs) sender).sockets q.1 =
        some (q.2.updatePeerEndpoint sender) ∧
      (∀ id, id ≠ q.1 →
        SocketMap.lookup (GetSocket m (PacketInfo.handshake hs) sender).sockets id =
          SocketMap.lookup m id)) ∧
    (findByAddressForRevision m sender = none →
      GetSocket m (PacketInfo.handshake hs) sender = ⟨none, m, []⟩) := by
  constructor
  · intro q hq
    have hmem : q ∈ m := List.mem_of_find?_eq_some hq
    have hne : ¬ List.isEmpty m := by
      cases m with
      | nil => simp at hmem
      | cons p rest => simp [List.isEmpty]
    have hres : GetSocket m (PacketInfo.handshake hs) sender =
        ⟨some q.1, SocketMap.replace m q.1 (q.2.updatePeerEndpoint sender),
         [GetSocketEffect.updatedPeerEndpoint q.1 sender]⟩ := by
      unfold GetSocket
      simp [hne, hnorm, hexact, hq]
    refine ⟨by rw [hres], by rw [hres], ?_, ?_⟩
    · rw [hres]
      exact lookup_replace_self m q.1 (q.2.updatePeerEndpoint sender)
        (lookup_isSome_of_mem m q hmem)
    · intro id hid
      rw [hres]
      exact lookup_replace_ne m q.1 id (q.2.updatePeerEndpoint sender) hid
  · intro hnone
    by_cases hne : List.isEmpty m
    · unfold GetSocket
      have : m = [] := by
        cases m with
        | nil => rfl
        | cons p rest => simp [List.isEmpty] at hne
      simp [hne, this]
    · unfold GetSocket
      simp [hne, hnorm, hexact, hnone]

/-- C3 witness: a socket registered for peer `1.2.3.4:40000` (public,
not connected) receives a `Normal` handshake from `1.2.3.4:40123`; its
endpoint is revised to the sender and the packet is delivered to it. -/
theorem c3_symmetric_nat_endpoint_revision_witness :
    (GetSocket [(9, RudpSocket.mk ⟨⟨1234, false⟩, 40000⟩ false 0)]
        (PacketInfo.handshake ⟨⟨5⟩, Reason.normal⟩) ⟨⟨1234, false⟩, 40123⟩).target =
      some 9 ∧
    (GetSocket [(9, RudpSocket.mk ⟨⟨1234, false⟩, 40000⟩ false 0)]
        (PacketInfo.handshake ⟨⟨5⟩, Reason.normal⟩) ⟨⟨1234, false⟩, 40123⟩).effects =
      [GetSocketEffect.updatedPeerEndpoint 9 ⟨⟨1234, false⟩, 40123⟩] ∧
    SocketMap.lookup
      (GetSocket [(9, RudpSocket.mk ⟨⟨1234, false⟩, 40000⟩ false 0)]
        (PacketInfo.handshake ⟨⟨5⟩, Reason.normal⟩) ⟨⟨1234, false⟩, 40123⟩).sockets 9 =
      some (RudpSocket.mk ⟨⟨1234, false⟩, 40123⟩ false 40000) := by
  have h := (c3_symmetric_nat_endpoint_revision [(9, RudpSocket.mk ⟨⟨1234, false⟩, 40000⟩ false 0)]
    ⟨⟨5⟩, Reason.normal⟩ ⟨⟨1234, false⟩, 40123⟩ rfl (by decide)).1
    (9, RudpSocket.mk ⟨⟨1234, false⟩, 40000⟩ false 0) (by decide)
  exact ⟨h.1, h.2.1, h.2.2.1⟩

/-- C4 counterexample: with an empty socket registry, a non-`Normal`
handshake trivially matches no socket's peer endpoint, yet `GetSocket`
returns at its `sockets_.empty()` early exit
(connection_manager.cc:163-164) without invoking `HandlePingFrom`,
contrary to the claim. -/
theorem c4_counterexample_empty_registry :
    ¬ (findByPeerEndpoint ([] : SocketMap) ⟨⟨10, false⟩, 30⟩ = none →
        GetSocketEffect.handlePingFrom ⟨⟨5⟩, Reason.ping⟩ ⟨⟨10, false⟩, 30⟩ ∈
          (GetSocket [] (PacketInfo.handshake ⟨⟨5⟩, Reason.ping⟩)
            ⟨⟨10, false⟩, 30⟩).effects) := by
  decide

/-- C4 (amended): provided at least one socket is registered, an
unbound handshake with reason ≠ `Normal` is delivered to the socket
whose peer endpoint equals the sender if one exists, and otherwise
`handle_ping_from(handshake, sender)` is invoked exactly once and no
socket is returned (connection_manager.cc:208-230). -/
theorem c4_nonnormal_handshake_routing (m : SocketMap) (hs : HandshakePacket)
    (sender : Endpoint) (hne : m ≠ []) (hreason : hs.reason ≠ Reason.normal) :
    (findByPeerEndpoint m sender = none →
      GetSocket m (PacketInfo.handshake hs) sender =
        ⟨none, m, [GetSocketEffect.handlePingFrom hs sender]⟩) ∧
    (∀ q, findByPeerEndpoint m sender = some q →
      GetSocket m (PacketInfo.handshake hs) sender = ⟨some q.1, m, []⟩) := by
  have hemp : ¬ List.isEmpty m = true := by
    cases m with
    | nil => exact absurd rfl hne
    | cons p rest => simp
  constructor
  · intro hnone
    unfold GetSocket
    cases hr : hs.reason with
    | normal => exact absurd hr hreason
    | bootstrapAndDrop => simp [hemp, hr, hnone]
    | natDetection => simp [hemp, hr, hnone]
    | ping => simp [hemp, hr, hnone]
  · intro q hq
    unfold GetSocket
    cases hr : hs.reason with
    | normal => exact absurd hr hreason
    | bootstrapAndDrop => simp [hemp, hr, hq]
    | natDetection => simp [hemp, hr, hq]
    | ping => simp [hemp, hr, hq]

/-- C4 witness: a ping handshake from an unknown sender with one
registered socket is routed to `HandlePingFrom`; from the known sender
it is delivered to the socket. -/
theorem c4_nonnormal_handshake_routing_witness :
    GetSocket [(9, RudpSocket.mk ⟨⟨1, false⟩, 2⟩ true 0)]
      (PacketInfo.handshake ⟨⟨5⟩, Reason.ping⟩) ⟨⟨10, false⟩, 30⟩ =
      ⟨none, [(9, RudpSocket.mk ⟨⟨1, false⟩, 2⟩ true 0)],
       [GetSocketEffect.handlePingFrom ⟨⟨5⟩, Reason.ping⟩ ⟨⟨10, false⟩, 30⟩]⟩ ∧
    GetSocket [(9, RudpSocket.mk ⟨⟨1, false⟩, 2⟩ true 0)]
      (PacketInfo.handshake ⟨⟨5⟩, Reason.ping⟩) ⟨⟨1, false⟩, 2⟩ =
      ⟨some 9, [(9, RudpSocket.mk ⟨⟨1, false⟩, 2⟩ true 0)], []⟩ :=
  ⟨(c4_nonnormal_handshake_routing [(9, RudpSocket.mk ⟨⟨1, false⟩, 2⟩ true 0)]
      ⟨⟨5⟩, Reason.ping⟩ ⟨⟨10, false⟩, 30⟩ (by decide) (by decide)).1 (by decide),
   (c4_nonnormal_handshake_routing [(9, RudpSocket.mk ⟨⟨1, false⟩, 2⟩ true 0)]
      ⟨⟨5⟩, Reason.ping⟩ ⟨⟨1, false⟩, 2⟩ (by decide) (by decide)).2
      (9, RudpSocket.mk ⟨⟨1, false⟩, 2⟩ true 0) (by decide)⟩

/-- Auxiliary: lookup misses exactly when no entry carries the key. -/
theorem lookup_eq_none_iff (m : SocketMap) (i : Nat) :
    SocketMap.lookup m i = none ↔ ∀ p ∈ m, p.1 ≠ i := by
  induction m with
  | nil => simp [SocketMap.lookup]
  | cons p rest ih =>
    rw [lookup_cons]
    by_cases hp : p.1 = i
    · simp [hp]
    · simp [hp, ih]

/-- Auxiliary: a successful `AddSocket` returns a fresh non-zero id and
conses the new entry. -/
theorem addSocket_spec (m : SocketMap) (s : RudpSocket) :
    ∀ (ds : List Nat) (id : Nat) (m' : SocketMap),
      AddSocket m s ds = some (id, m') →
      id ≠ 0 ∧ SocketMap.lookup m id = none ∧ m' = (id, s) :: m := by
  intro ds
  induction ds with
  | nil => intro id m' h; simp [AddSocket] at h
  | cons d ds ih =>
    intro id m' h
    by_cases h1 : (d = 0 || (SocketMap.lookup m d).isSome) = true
    · rw [AddSocket, if_pos h1] at h
      exact ih id m' h
    · rw [AddSocket, if_neg h1] at h
      simp only [Option.some.injEq, Prod.mk.injEq] at h
      obtain ⟨h3, h4⟩ := h
      simp only [Bool.or_eq_true, not_or, decide_eq_true_eq] at h1
      subst h3
      refine ⟨h1.1, ?_, h4.symm⟩
      cases hl : SocketMap.lookup m d with
      | none => rfl
      | some v =>
        rw [hl] at h1
        simp at h1

/-- Auxiliary: a non-zero-id removal leaves lookups of other ids
unchanged. -/
theorem lookup_filter_out_ne (m : SocketMap) (id id' : Nat) (h : id' ≠ id) :
    SocketMap.lookup (m.filter (fun p => p.1 ≠ id)) id' = SocketMap.lookup m id' := by
  induction m with
  | nil => rfl
  | cons p rest ih =>
    by_cases hp : p.1 = id
    · rw [List.filter_cons_of_neg (by simpa using hp), lookup_cons,
        if_neg (fun hc => h (hp ▸ hc).symm)]
      exact ih
    · rw [List.filter_cons_of_pos (by simpa using hp), lookup_cons, lookup_cons]
      by_cases hq : p.1 = id'
      · rw [if_pos hq, if_pos hq]
      · rw [if_neg hq, if_neg hq]
        exact ih

/-- C6: a successful `add_socket` returns an id that is non-zero and
unused at call time (regenerating on collision until the draw stream
yields one), immediately afterwards `find(id)` returns the added
socket, and well-formedness (all ids non-zero and unique) is
preserved; `remove_socket` ignores id 0, for a non-zero id removes the
entry (its lookup afterwards misses, all other ids are unaffected), is
idempotent, and preserves well-formedness
(connection_manager.cc:317-330). -/
theorem c6_socket_registry :
    (∀ (m : SocketMap) (s : RudpSocket) (ds : List Nat) (id : Nat) (m' : SocketMap),
        AddSocket m s ds = some (id, m') →
        id ≠ 0 ∧ SocketMap.lookup m id = none ∧ SocketMap.lookup m' id = some s ∧
          (SocketMap.wf m → SocketMap.wf m')) ∧
    (∀ m : SocketMap, RemoveSocket m 0 = m) ∧
    (∀ (m : SocketMap) (id : Nat), id ≠ 0 →
        SocketMap.lookup (RemoveSocket m id) id = none ∧
        ∀ id', id' ≠ id →
          SocketMap.lookup (RemoveSocket m id) id' = SocketMap.lookup m id') ∧
    (∀ (m : SocketMap) (id : Nat),
        RemoveSocket (RemoveSocket m id) id = RemoveSocket m id) ∧
    (∀ (m : SocketMap) (id : Nat), SocketMap.wf m → SocketMap.wf (RemoveSocket m id)) := by
  refine ⟨?_, ?_, ?_, ?_, ?_⟩
  · intro m s ds id m' h
    obtain ⟨hid, hfresh, hm'⟩ := addSocket_spec m s ds id m' h
    subst hm'
    refine ⟨hid, hfresh, ?_, ?_⟩
    · rw [lookup_cons]
      simp
    · intro hwf
      constructor
      · intro p hp
        rcases List.mem_cons.1 hp with h1 | h2
        · rw [h1]; exact hid
        · exact hwf.1 p h2
      · rw [List.map_cons]
        refine List.Nodup.cons ?_ hwf.2
        intro hmem
        rcases List.mem_map.1 hmem with ⟨p, hp, hp2⟩
        exact (lookup_eq_none_iff m id).1 hfresh p hp hp2
  · intro m
    simp [RemoveSocket]
  · intro m id h0
    unfold RemoveSocket
    rw [if_neg h0]
    refine ⟨?_, ?_⟩
    · refine (lookup_eq_none_iff _ id).2 (fun p hp => ?_)
      have := List.of_mem_filter hp
      simpa using this
    · intro id' hid'
      exact lookup_filter_out_ne m id id' hid'
  · intro m id
    unfold RemoveSocket
    by_cases h0 : id = 0
    · simp [h0]
    · simp only [h0, if_false, List.filter_filter]
      simp
  · intro m id hwf
    unfold RemoveSocket
    by_cases h0 : id = 0
    · simpa [h0] using hwf
    · rw [if_neg h0]
      refine ⟨fun p hp => hwf.1 p (List.mem_of_mem_filter hp), ?_⟩
      exact List.Nodup.sublist (List.Sublist.map Prod.fst (List.filter_sublist m)) hwf.2

/-- C6 witness: from the empty registry, the draw stream `[0, 5]`
forces one regeneration and then registers the socket under id 5;
removing id 0 is a no-op; removing id 5 makes its lookup miss while
id 9 is unaffected. -/
theorem c6_socket_registry_witness :
    (5 ≠ 0 ∧ SocketMap.lookup [] 5 = none ∧
      SocketMap.lookup [(5, RudpSocket.mk ⟨⟨1, false⟩, 2⟩ false 0)] 5 =
        some (RudpSocket.mk ⟨⟨1, false⟩, 2⟩ false 0) ∧
      (SocketMap.wf [] → SocketMap.wf [(5, RudpSocket.mk ⟨⟨1, false⟩, 2⟩ false 0)])) ∧
    RemoveSocket [(5, RudpSocket.mk ⟨⟨1, false⟩, 2⟩ false 0)] 0 =
      [(5, RudpSocket.mk ⟨⟨1, false⟩, 2⟩ false 0)] ∧
    SocketMap.lookup (RemoveSocket [(5, RudpSocket.mk ⟨⟨1, false⟩, 2⟩ false 0)] 5) 5 =
      none ∧
    SocketMap.lookup (RemoveSocket [(5, RudpSocket.mk ⟨⟨1, false⟩, 2⟩ false 0)] 5) 9 =
      SocketMap.lookup [(5, RudpSocket.mk ⟨⟨1, false⟩, 2⟩ false 0)] 9 :=
  ⟨c6_socket_registry.1 [] (RudpSocket.mk ⟨⟨1, false⟩, 2⟩ false 0) [0, 5] 5
      [(5, RudpSocket.mk ⟨⟨1, false⟩, 2⟩ false 0)] (by decide),
   c6_socket_registry.2.1 [(5, RudpSocket.mk ⟨⟨1, false⟩, 2⟩ false 0)],
   (c6_socket_registry.2.2.1 [(5, RudpSocket.mk ⟨⟨1, false⟩, 2⟩ false 0)] 5 (by decide)).1,
   (c6_socket_registry.2.2.1 [(5, RudpSocket.mk ⟨⟨1, false⟩, 2⟩ false 0)] 5 (by decide)).2
     9 (by decide)⟩

/-- C7 counterexample: with the multiplexer open at call time, a valid
distinct external endpoint, but the multiplexer closed by the time the
external attempt's outcome arrives, `Transport::DoConnect`
(transport.cc:294-297) forwards the outcome to the handler without
initiating the connect to the local endpoint, contrary to the claim
that the local connect is always initiated upon the external outcome. -/
theorem c7_counterexample_mux_closed_at_outcome :
    (DoConnect true ⟨3⟩ ⟨⟨⟨2, false⟩, 20⟩, ⟨⟨1, false⟩, 10⟩⟩).onFirstOutcome false ≠
      [⟨⟨3⟩, ⟨⟨2, false⟩, 20⟩, Duration.rendezvousConnectTimeout, Duration.posInfin⟩] := by
  decide

/-- C7 (amended): with the multiplexer closed the handler is invoked
immediately with `failed_to_connect` and nothing is started; with a
valid external endpoint a `rendezvous_connect_timeout` connect to
external is started, and when local ≠ external a connect to local is
additionally initiated upon the external outcome (success or failure)
provided the multiplexer is still open at that moment (otherwise no
local connect is started); with an invalid external endpoint only the
local endpoint is attempted (transport.cc:276-313). -/
theorem c7_rendezvous_connect (muxOpen : Bool) (peerId : NodeId) (pair : EndpointPair) :
    (muxOpen = false →
      (DoConnect muxOpen peerId pair).immediateFail = true ∧
      (DoConnect muxOpen peerId pair).initialConnects = [] ∧
      ∀ b, (DoConnect muxOpen peerId pair).onFirstOutcome b = []) ∧
    (muxOpen = true → pair.epExternal.isValid = true →
      (DoConnect muxOpen peerId pair).immediateFail = false ∧
      (DoConnect muxOpen peerId pair).initialConnects =
        [⟨peerId, pair.epExternal, Duration.rendezvousConnectTimeout, Duration.posInfin⟩] ∧
      (pair.epLocal ≠ pair.epExternal →
        (DoConnect muxOpen peerId pair).onFirstOutcome true =
          [⟨peerId, pair.epLocal, Duration.rendezvousConnectTimeout, Duration.posInfin⟩] ∧
        (DoConnect muxOpen peerId pair).onFirstOutcome false = []) ∧
      (pair.epLocal = pair.epExternal →
        ∀ b, (DoConnect muxOpen peerId pair).onFirstOutcome b = [])) ∧
    (muxOpen = true → pair.epExternal.isValid = false →
      (DoConnect muxOpen peerId pair).immediateFail = false ∧
      (DoConnect muxOpen peerId pair).initialConnects =
        [⟨peerId, pair.epLocal, Duration.rendezvousConnectTimeout, Duration.posInfin⟩] ∧
      ∀ b, (DoConnect muxOpen peerId pair).onFirstOutcome b = []) := by
  refine ⟨?_, ?_, ?_⟩
  · intro h
    subst h
    refine ⟨rfl, rfl, fun b => rfl⟩
  · intro h hv
    subst h
    by_cases hne : pair.epLocal = pair.epExternal
    · refine ⟨?_, ?_, fun hc => absurd hne hc, fun _ b => ?_⟩
      · simp [DoConnect, hv, hne]
      · simp [DoConnect, hv, hne]
      · simp [DoConnect, hv, hne]
    · refine ⟨?_, ?_, fun _ => ⟨?_, ?_⟩, fun hc => absurd hc hne⟩
      · simp [DoConnect, hv, hne]
      · simp [DoConnect, hv, hne]
      · simp [DoConnect, hv, hne]
      · simp [DoConnect, hv, hne]
  · intro h hv
    subst h
    refine ⟨?_, ?_, fun b => ?_⟩
    · simp [DoConnect, hv]
    · simp [DoConnect, hv]
    · simp [DoConnect, hv]

/-- C7 witness: concrete closed-multiplexer, rendezvous and
local-only instances. -/
theorem c7_rendezvous_connect_witness :
    ((DoConnect false ⟨3⟩ ⟨⟨⟨2, false⟩, 20⟩, ⟨⟨1, false⟩, 10⟩⟩).immediateFail = true ∧
      (DoConnect false ⟨3⟩ ⟨⟨⟨2, false⟩, 20⟩, ⟨⟨1, false⟩, 10⟩⟩).initialConnects = []) ∧
    ((DoConnect true ⟨3⟩ ⟨⟨⟨2, false⟩, 20⟩, ⟨⟨1, false⟩, 10⟩⟩).initialConnects =
      [⟨⟨3⟩, ⟨⟨1, false⟩, 10⟩, Duration.rendezvousConnectTimeout, Duration.posInfin⟩] ∧
      (DoConnect true ⟨3⟩ ⟨⟨⟨2, false⟩, 20⟩, ⟨⟨1, false⟩, 10⟩⟩).onFirstOutcome true =
        [⟨⟨3⟩, ⟨⟨2, false⟩, 20⟩, Duration.rendezvousConnectTimeout, Duration.posInfin⟩]) ∧
    (DoConnect true ⟨3⟩ ⟨⟨⟨2, false⟩, 20⟩, Endpoint.null⟩).initialConnects =
      [⟨⟨3⟩, ⟨⟨2, false⟩, 20⟩, Duration.rendezvousConnectTimeout, Duration.posInfin⟩] := by
  refine ⟨⟨?_, ?_⟩, ⟨?_, ?_⟩, ?_⟩
  · exact ((c7_rendezvous_connect false ⟨3⟩
      ⟨⟨⟨2, false⟩, 20⟩, ⟨⟨1, false⟩, 10⟩⟩).1 rfl).1
  · exact ((c7_rendezvous_connect false ⟨3⟩
      ⟨⟨⟨2, false⟩, 20⟩, ⟨⟨1, false⟩, 10⟩⟩).1 rfl).2.1
  · exact ((c7_rendezvous_connect true ⟨3⟩
      ⟨⟨⟨2, false⟩, 20⟩, ⟨⟨1, false⟩, 10⟩⟩).2.1 rfl (by decide)).2.1
  · exact (((c7_rendezvous_connect true ⟨3⟩
      ⟨⟨⟨2, false⟩, 20⟩, ⟨⟨1, false⟩, 10⟩⟩).2.1 rfl (by decide)).2.2.1 (by decide)).1
  · exact ((c7_rendezvous_connect true ⟨3⟩
      ⟨⟨⟨2, false⟩, 20⟩, Endpoint.null⟩).2.2 rfl (by decide)).2.1

/-- Auxiliary: when every candidate attempt yields the null id, the
iteration delivers the null id. -/
theorem connectToBootstrapEndpoints_all_null (o : Contact → NodeId) :
    ∀ l : List Contact, (∀ c ∈ l, bootstrapAttempt o c = NodeId.null) →
      connectToBootstrapEndpoints o l = NodeId.null := by
  intro l
  induction l with
  | nil => intro _; rfl
  | cons c rest ih =>
    intro h
    have hc := h c (List.mem_cons_self c rest)
    simp only [connectToBootstrapEndpoints, hc]
    simp only [NodeId.isValid, NodeId.null, ne_eq, decide_not]
    simp
    exact ih (fun b hb => h b (List.mem_cons_of_mem c hb))

/-- Auxiliary: the first candidate with a valid outcome stops the
iteration and its outcome is delivered. -/
theorem connectToBootstrapEndpoints_first_success (o : Contact → NodeId) :
    ∀ (l₁ : List Contact) (c : Contact) (l₂ : List Contact),
      (∀ b ∈ l₁, bootstrapAttempt o b = NodeId.null) →
      (bootstrapAttempt o c).isValid = true →
      connectToBootstrapEndpoints o (l₁ ++ c :: l₂) = bootstrapAttempt o c := by
  intro l₁
  induction l₁ with
  | nil =>
    intro c l₂ _ hv
    simp [connectToBootstrapEndpoints, hv]
  | cons b rest ih =>
    intro c l₂ h hv
    have hb := h b (List.mem_cons_self b rest)
    simp only [List.cons_append, connectToBootstrapEndpoints, hb]
    simp only [NodeId.isValid, NodeId.null, ne_eq, decide_not]
    simp
    exact ih c l₂ (fun x hx => h x (List.mem_cons_of_mem b hx)) hv

/-- Auxiliary: finding by id in a list whose prefix carries other ids
returns the distinguished element. -/
theorem find?_id_first (l₁ : List Contact) (c : Contact) (l₂ : List Contact)
    (h : ∀ b ∈ l₁, b.id ≠ c.id) :
    List.find? (fun x => x.id = c.id) (l₁ ++ c :: l₂) = some c := by
  induction l₁ with
  | nil => simp [List.find?_cons_of_pos]
  | cons b rest ih =>
    have hb := h b (List.mem_cons_self b rest)
    rw [List.cons_append, List.find?_cons_of_neg _ (by simpa using hb)]
    exact ih (fun x hx => h x (List.mem_cons_of_mem b hx))

/-- Auxiliary: in a list of contacts with pairwise distinct ids, the
elements before a given occurrence carry different ids. -/
theorem nodup_prefix_ne (l₁ : List Contact) (c : Contact) (l₂ : List Contact)
    (h : (((l₁ ++ c :: l₂).map Contact.id)).Nodup) :
    ∀ b ∈ l₁, b.id ≠ c.id := by
  intro b hb heq
  rw [List.map_append] at h
  have h' := List.nodup_append.mp h
  exact h'.2.2 (List.mem_map_of_mem Contact.id hb) (by simp [heq])

/-- C8: bootstrap tries candidates strictly in list order, moving to
the next only after the previous attempt fails to yield a valid peer
id; the first candidate yielding a valid peer id stops the iteration
and is reported with `kSuccess`; if every candidate is exhausted the
single completion invocation carries `kNotConnectable` and the null
contact (transport.cc:100-157). The hypotheses say that an attempt
either fails or reports the candidate's own id, and that candidate ids
are pairwise distinct. -/
theorem c8_bootstrap_candidate_iteration (o : Contact → NodeId) (l : List Contact)
    (hids : ∀ c ∈ l, bootstrapAttempt o c = NodeId.null ∨ bootstrapAttempt o c = c.id)
    (hnodup : (l.map Contact.id).Nodup) :
    ((∀ c ∈ l, bootstrapAttempt o c = NodeId.null) →
      tryBootstrapping o l = (ReturnCode.kNotConnectable, none)) ∧
    (∀ (l₁ : List Contact) (c : Contact) (l₂ : List Contact),
      l = l₁ ++ c :: l₂ →
      (∀ b ∈ l₁, bootstrapAttempt o b = NodeId.null) →
      (bootstrapAttempt o c).isValid = true →
      tryBootstrapping o l = (ReturnCode.kSuccess, some c)) := by
  constructor
  · intro hall
    unfold tryBootstrapping onBootstrapOutcome
    rw [connectToBootstrapEndpoints_all_null o l hall]
    simp [NodeId.isValid, NodeId.null]
  · intro l₁ c l₂ hl hfail hv
    subst hl
    unfold tryBootstrapping onBootstrapOutcome
    rw [connectToBootstrapEndpoints_first_success o l₁ c l₂ hfail hv]
    have hcid : bootstrapAttempt o c = c.id := by
      rcases hids c (by simp) with hnull | hid
      · rw [hnull] at hv
        simp [NodeId.isValid, NodeId.null] at hv
      · exact hid
    rw [hcid] at hv ⊢
    simp only [hv, if_true]
    rw [find?_id_first l₁ c l₂ (nodup_prefix_ne l₁ c l₂ hnodup)]

/-- C8 witness: with two candidates where the first fails and the
second succeeds with its own id, bootstrap reports `kSuccess` with the
second candidate. -/
theorem c8_bootstrap_candidate_iteration_witness :
    tryBootstrapping (fun c => if c.id.val = 2 then ⟨2⟩ else ⟨0⟩)
      [⟨⟨1⟩, ⟨⟨9, false⟩, 10⟩, ⟨⟨9, false⟩, 11⟩⟩, ⟨⟨2⟩, ⟨⟨9, false⟩, 12⟩, ⟨⟨9, false⟩, 13⟩⟩] =
      (ReturnCode.kSuccess, some ⟨⟨2⟩, ⟨⟨9, false⟩, 12⟩, ⟨⟨9, false⟩, 13⟩⟩) :=
  (c8_bootstrap_candidate_iteration (fun c => if c.id.val = 2 then ⟨2⟩ else ⟨0⟩)
      [⟨⟨1⟩, ⟨⟨9, false⟩, 10⟩, ⟨⟨9, false⟩, 11⟩⟩, ⟨⟨2⟩, ⟨⟨9, false⟩, 12⟩, ⟨⟨9, false⟩, 13⟩⟩]
      (by decide) (by decide)).2
    [⟨⟨1⟩, ⟨⟨9, false⟩, 10⟩, ⟨⟨9, false⟩, 11⟩⟩] ⟨⟨2⟩, ⟨⟨9, false⟩, 12⟩, ⟨⟨9, false⟩, 13⟩⟩ []
    rfl (by decide) (by decide)

end Rudp
